import Mathlib

/-!
Verification of the collection-lifecycle orchestration module
(`src/collection.ts`) of the Metaplex-Hybrid-NFT-Development-Suite
repository.

The module is a thin client over the Metaplex SDK: it uploads collection
metadata to a content store, creates a collection record on the ledger,
verifies membership of a candidate token, and updates a record's metadata
locator.  We embed the module shallowly: the external SDK / ledger / content
store is a `World` value holding the responses of each external endpoint
together with a log of the SDK calls issued, and each exported function of
the module becomes a Lean function threading that `World`.
-/

namespace Collection

/-- A `(creator address, share)` pair.  Addresses (`PublicKey` / base58
strings in the source) are modelled as strings. -/
structure Creator where
  address : String
  share : Int
deriving DecidableEq, Repr

/-- One entry of `properties.files` in the metadata document. -/
structure MetaFile where
  uri : String
  type : String
deriving DecidableEq, Repr

/-- The `properties` sub-object of the metadata document. -/
structure MetaProperties where
  files : List MetaFile
  category : String
  creators : List Creator
deriving DecidableEq, Repr

/-- The metadata document accepted by `uploadCollectionMetadata`
(src/collection.ts lines 41-56). -/
structure Metadata where
  name : String
  symbol : String
  description : String
  image : String
  external_url : Option String
  seller_fee_basis_points : Int
  properties : MetaProperties
deriving DecidableEq, Repr

/-- The input object of `createCollection` (src/collection.ts lines 66-77).
The optional `collection` field is present in the type but, as the proofs
below show, never forwarded. -/
structure CollectionData where
  name : String
  symbol : String
  uri : String
  sellerFeeBasisPoints : Int
  creators : List Creator
  collection : Option String
  isMutable : Option Bool
deriving DecidableEq, Repr

/-- The argument object actually passed to the SDK call
`metaplex.nfts().create({...})` (src/collection.ts lines 81-89). -/
structure CreateArgs where
  name : String
  symbol : String
  uri : String
  sellerFeeBasisPoints : Int
  creators : List Creator
  isMutable : Bool
  isCollection : Bool
deriving DecidableEq, Repr

/-- An on-ledger collection record (the `nft` value returned by the SDK):
ledger-assigned address plus the metadata fields. -/
structure NftRecord where
  address : String
  name : String
  symbol : String
  uri : String
  sellerFeeBasisPoints : Int
  creators : List Creator
  isMutable : Bool
deriving DecidableEq, Repr

/-- Error taxonomy of the spec (section 7).  The source attaches no payload
to any propagated error: every error a run of the module produces is one of
these bare tags. -/
inductive Err where
  | ValidationError
  | PublishError
  | LedgerError
  | NotFoundError
deriving DecidableEq, Repr

/-- A log entry: one call issued to the external SDK. -/
inductive SdkCall where
  | uploadMetadata (m : Metadata)
  | create (a : CreateArgs)
  | verifyCollection (mintAddress : String) (collectionMintAddress : String)
  | findByMint (mintAddress : String)
  | update (address : String) (uri : String)
deriving DecidableEq, Repr

/-- The external world the module talks to: the content store's response to
an upload, the ledger's response to a create (`Except.ok addr` means the
transaction settles and the ledger assigns address `addr`), the ledger's
response to a membership-verification submission, the ledger's current
account records, and the log of SDK calls issued so far. -/
structure World where
  store : Metadata → Except Err String
  createResp : CreateArgs → Except Err String
  verifyResp : String → String → Except Err Unit
  ledger : String → Option NftRecord
  calls : List SdkCall

/-- SDK primitive `metaplex.nfts().uploadMetadata`: forwards the document to
the content store and logs the call. -/
def sdkUploadMetadata (w : World) (m : Metadata) : Except Err String × World :=
  (w.store m, { w with calls := w.calls ++ [SdkCall.uploadMetadata m] })

/-- SDK primitive `metaplex.nfts().create`.  Modelled from the spec (section
4.3 and 6): on acceptance the ledger assigns a fresh address and the returned
record carries exactly the submitted fields; on rejection the error
propagates.  The call is logged either way. -/
def sdkNftCreate (w : World) (a : CreateArgs) : Except Err NftRecord × World :=
  match w.createResp a with
  | Except.error e =>
      (Except.error e, { w with calls := w.calls ++ [SdkCall.create a] })
  | Except.ok addr =>
      let r : NftRecord :=
        { address := addr, name := a.name, symbol := a.symbol, uri := a.uri,
          sellerFeeBasisPoints := a.sellerFeeBasisPoints,
          creators := a.creators, isMutable := a.isMutable }
      (Except.ok r,
        { w with
          ledger := fun x => if x = addr then some r else w.ledger x,
          calls := w.calls ++ [SdkCall.create a] })

/-- SDK primitive `metaplex.nfts().verifyCollection`: submits a
verification transaction to the ledger and logs the submission. -/
def sdkVerifyCollection (w : World) (mintAddress collectionMintAddress : String) :
    Except Err Unit × World :=
  (w.verifyResp mintAddress collectionMintAddress,
    { w with calls := w.calls ++ [SdkCall.verifyCollection mintAddress collectionMintAddress] })

/-- SDK primitive `metaplex.nfts().findByMint`.  Modelled from the spec
(section 6, `queryAccount(address) -> record|not-found`): a resolving
address yields its record, a non-resolving one yields `NotFoundError`. -/
def sdkFindByMint (w : World) (mintAddress : String) : Except Err NftRecord × World :=
  let w1 := { w with calls := w.calls ++ [SdkCall.findByMint mintAddress] }
  match w.ledger mintAddress with
  | none => (Except.error Err.NotFoundError, w1)
  | some r => (Except.ok r, w1)

/-- SDK primitive `metaplex.nfts().update({nftOrSft, uri})`.  Modelled from
the spec (sections 4.3 and 6): the transaction rewrites exactly the fields
the caller supplies — the source supplies only `uri` — and the ledger
rejects the update with `LedgerError` when the record is immutable. -/
def sdkUpdate (w : World) (r : NftRecord) (newUri : String) : Except Err Unit × World :=
  let w1 := { w with calls := w.calls ++ [SdkCall.update r.address newUri] }
  if r.isMutable then
    (Except.ok (),
      { w1 with
        ledger := fun x => if x = r.address then some { r with uri := newUri }
                           else w.ledger x })
  else
    (Except.error Err.LedgerError, w1)

/-- `uploadCollectionMetadata` (src/collection.ts lines 39-61): delegates
the document directly to `uploadMetadata` and returns the resulting uri.
The source performs no local validation of the document. -/
def uploadCollectionMetadata (w : World) (metadata : Metadata) :
    Except Err String × World :=
  sdkUploadMetadata w metadata

/-- The argument object `createCollection` builds for the SDK create call
(src/collection.ts lines 81-89): the `collection` field of the input is not
forwarded, `isMutable` defaults to `true` (`?? true`), and `isCollection`
is hard-coded `true`. -/
def createArgsOf (collectionData : CollectionData) : CreateArgs :=
  { name := collectionData.name,
    symbol := collectionData.symbol,
    uri := collectionData.uri,
    sellerFeeBasisPoints := collectionData.sellerFeeBasisPoints,
    creators := collectionData.creators,
    isMutable := collectionData.isMutable.getD true,
    isCollection := true }

/-- `createCollection` (src/collection.ts lines 64-96): issues the SDK
create call and returns the created record. -/
def createCollection (w : World) (collectionData : CollectionData) :
    Except Err NftRecord × World :=
  sdkNftCreate w (createArgsOf collectionData)

/-- `verifyCollection` (src/collection.ts lines 99-112): submits one
verification transaction (`mintAddress` = candidate, `collectionMintAddress`
= collection). -/
def verifyCollection (w : World) (collectionAddress nftAddress : String) :
    Except Err Unit × World :=
  sdkVerifyCollection w nftAddress collectionAddress

/-- `updateCollectionMetadata` (src/collection.ts lines 115-132): resolves
the record by address with `findByMint` first, then issues the update with
the new uri.  A failure of the lookup propagates and the update is never
issued. -/
def updateCollectionMetadata (w : World) (collectionAddress newUri : String) :
    Except Err Unit × World :=
  match sdkFindByMint w collectionAddress with
  | (Except.error e, w1) => (Except.error e, w1)
  | (Except.ok collection, w1) => sdkUpdate w1 collection newUri

/-- The fixed metadata document built by `exampleCreateCollection`
(src/collection.ts lines 147-169), parametric in the payer's public key. -/
def exampleMetadata (payerPubkey : String) : Metadata :=
  { name := "My Hybrid Collection",
    symbol := "MHC",
    description := "A revolutionary hybrid NFT collection on Solana",
    image := "https://arweave.net/your-image-url",
    external_url := some "https://yourwebsite.com",
    seller_fee_basis_points := 500,
    properties :=
      { files := [{ uri := "https://arweave.net/your-image-url", type := "image/png" }],
        category := "image",
        creators := [{ address := payerPubkey, share := 100 }] } }

/-- The create input `exampleCreateCollection` builds from the uploaded uri
(src/collection.ts lines 175-187). -/
def exampleCreateData (payerPubkey uri : String) : CollectionData :=
  { name := (exampleMetadata payerPubkey).name,
    symbol := (exampleMetadata payerPubkey).symbol,
    uri := uri,
    sellerFeeBasisPoints := (exampleMetadata payerPubkey).seller_fee_basis_points,
    creators := [{ address := payerPubkey, share := 100 }],
    collection := none,
    isMutable := some true }

/-- `exampleCreateCollection` (src/collection.ts lines 135-190): the
orchestration workflow — upload the fixed metadata, then create the
collection with the obtained uri.  A thrown upload error propagates (the
`await` rethrows) and the create step is never reached. -/
def exampleCreateCollection (w : World) (payerPubkey : String) :
    Except Err NftRecord × World :=
  match uploadCollectionMetadata w (exampleMetadata payerPubkey) with
  | (Except.error e, w1) => (Except.error e, w1)
  | (Except.ok uri, w1) => createCollection w1 (exampleCreateData payerPubkey uri)

/-- The bundlr storage configuration object
(src/collection.ts lines 29-33). -/
structure BundlrConfig where
  address : String
  providerUrl : String
  timeout : Nat
deriving DecidableEq, Repr

/-- The session produced by `initializeMetaplex`: the ledger connection
endpoint, the signing identity, and the content-store configuration. -/
structure MetaplexSession where
  connectionEndpoint : String
  identity : String
  storage : BundlrConfig
deriving DecidableEq, Repr

/-- `initializeMetaplex` (src/collection.ts lines 21-36): builds a
connection to `rpcEndpoint` and configures bundlr storage with the
hard-coded devnet address, `providerUrl := rpcEndpoint` and a 60000 ms
timeout. -/
def initializeMetaplex (rpcEndpoint : String) (payerKeypair : String) :
    MetaplexSession :=
  { connectionEndpoint := rpcEndpoint,
    identity := payerKeypair,
    storage :=
      { address := "https://devnet.bundlr.network",
        providerUrl := rpcEndpoint,
        timeout := 60000 } }

/-- Sum of the creator shares of a creators list. -/
def creatorSharesSum (creators : List Creator) : Int :=
  creators.foldl (fun s c => s + c.share) 0

/-- The Metadata Document invariant of the spec (section 3): creator shares
sum to exactly 100 and the royalty basis points lie within [0, 10000]. -/
def validMetadataDocument (m : Metadata) : Prop :=
  creatorSharesSum m.properties.creators = 100 ∧
  0 ≤ m.seller_fee_basis_points ∧ m.seller_fee_basis_points ≤ 10000

instance (m : Metadata) : Decidable (validMetadataDocument m) := by
  unfold validMetadataDocument
  exact inferInstance

/-- A metadata document whose creator shares sum to 90 (violating the
shares-sum-to-100 invariant), matching the scenario of spec section 8. -/
def invalidDoc : Metadata :=
  { name := "X", symbol := "X", description := "d", image := "i",
    external_url := none,
    seller_fee_basis_points := 500,
    properties :=
      { files := [], category := "image",
        creators := [{ address := "A", share := 60 }, { address := "B", share := 30 }] } }

/-- A world in which every external endpoint accepts: uploads return
`"loc://up"`, creates settle at address `"addr123"`, verifications succeed,
and the ledger starts empty. -/
def wOk : World :=
  { store := fun _ => Except.ok "loc://up",
    createResp := fun _ => Except.ok "addr123",
    verifyResp := fun _ _ => Except.ok (),
    ledger := fun _ => none,
    calls := [] }

/-- A world whose upload fails with a publish error. -/
def wPublishFail : World :=
  { wOk with store := fun _ => Except.error Err.PublishError }

/-- A world whose upload succeeds with locator `"loc://abc"` but whose
create transaction is rejected by the ledger. -/
def wAbc : World :=
  { wOk with
    store := fun _ => Except.ok "loc://abc",
    createResp := fun _ => Except.error Err.LedgerError }

/-- Identical to `wAbc` except that the upload returns locator
`"loc://xyz"`. -/
def wXyz : World :=
  { wAbc with store := fun _ => Except.ok "loc://xyz" }

/-- A settled mutable collection record at address `"addr123"`. -/
def rec123 : NftRecord :=
  { address := "addr123", name := "My Hybrid Collection", symbol := "MHC",
    uri := "loc://abc", sellerFeeBasisPoints := 500,
    creators := [{ address := "P", share := 100 }], isMutable := true }

/-- A world whose ledger holds exactly the record `rec123`. -/
def wLedger : World :=
  { wOk with ledger := fun a => if a = "addr123" then some rec123 else none }

/-- The example create input with the `isMutable` option omitted. -/
def cdNoMut : CollectionData :=
  { exampleCreateData "P" "loc://abc" with isMutable := none }

/-- The example create input with `isMutable` explicitly `false`. -/
def cdExplicit : CollectionData :=
  { exampleCreateData "P" "loc://abc" with isMutable := some false }

/-- C1 counterexample: on a document violating the shares-sum-to-100
invariant, `uploadCollectionMetadata` does not fail with `ValidationError`;
it issues the upload network call and returns the store's locator. -/
theorem uploadCollectionMetadata_validation_cex :
    ¬ validMetadataDocument invalidDoc ∧
    (uploadCollectionMetadata wOk invalidDoc).1 = Except.ok "loc://up" ∧
    (uploadCollectionMetadata wOk invalidDoc).2.calls
      = [SdkCall.uploadMetadata invalidDoc] :=
  ⟨by decide, rfl, rfl⟩

/-- C1 (amended): `uploadCollectionMetadata` performs no local validation
at all: for every metadata document, valid or invalid, it issues exactly
one upload call and returns the content store's response unchanged. -/
theorem uploadCollectionMetadata_no_validation (w : World) (m : Metadata) :
    (uploadCollectionMetadata w m).1 = w.store m ∧
    (uploadCollectionMetadata w m).2.calls = w.calls ++ [SdkCall.uploadMetadata m] :=
  ⟨rfl, rfl⟩

/-- C2: in every run of `exampleCreateCollection`, the upload (publish)
call is issued before the create call; if the upload fails, the logged
calls are exactly the upload and the create is never issued; if the upload
succeeds, the log is exactly the upload followed by the create. -/
theorem exampleCreateCollection_order (w : World) (p : String) :
    (∀ e : Err, w.store (exampleMetadata p) = Except.error e →
      (exampleCreateCollection w p).2.calls
        = w.calls ++ [SdkCall.uploadMetadata (exampleMetadata p)]) ∧
    (∀ uri : String, w.store (exampleMetadata p) = Except.ok uri →
      (exampleCreateCollection w p).2.calls
        = w.calls ++ [SdkCall.uploadMetadata (exampleMetadata p),
                      SdkCall.create (createArgsOf (exampleCreateData p uri))]) := by
  constructor
  · intro e he
    simp [exampleCreateCollection, uploadCollectionMetadata, sdkUploadMetadata, he]
  · intro uri hu
    cases h2 : w.createResp (createArgsOf (exampleCreateData p uri)) <;>
      simp [exampleCreateCollection, uploadCollectionMetadata, sdkUploadMetadata, hu,
            createCollection, sdkNftCreate, h2]

/-- C2 witness: in a world whose upload fails, the workflow logs only the
upload call. -/
theorem exampleCreateCollection_order_witness :
    wPublishFail.store (exampleMetadata "P") = Except.error Err.PublishError ∧
    (exampleCreateCollection wPublishFail "P").2.calls
      = wPublishFail.calls ++ [SdkCall.uploadMetadata (exampleMetadata "P")] :=
  ⟨rfl, (exampleCreateCollection_order wPublishFail "P").1 Err.PublishError rfl⟩

/-- C3 counterexample: two runs whose successful publishes returned the
distinct locators `"loc://abc"` and `"loc://xyz"`, followed by a rejected
create, propagate the identical bare error `Err.LedgerError`: the obtained
locator is neither returned nor attached to the propagated failure. -/
theorem exampleCreateCollection_locator_cex :
    wAbc.store (exampleMetadata "P") = Except.ok "loc://abc" ∧
    wXyz.store (exampleMetadata "P") = Except.ok "loc://xyz" ∧
    (exampleCreateCollection wAbc "P").1 = Except.error Err.LedgerError ∧
    (exampleCreateCollection wXyz "P").1 = Except.error Err.LedgerError ∧
    (exampleCreateCollection wAbc "P").1 = (exampleCreateCollection wXyz "P").1 :=
  ⟨rfl, rfl, rfl, rfl, rfl⟩

/-- C3 (amended): when the create step fails after a successful publish,
`exampleCreateCollection` propagates the create error unchanged; the
locator obtained from the publish is dropped, not returned or attached. -/
theorem exampleCreateCollection_create_failure (w : World) (p uri : String) (e : Err)
    (hu : w.store (exampleMetadata p) = Except.ok uri)
    (hc : w.createResp (createArgsOf (exampleCreateData p uri)) = Except.error e) :
    (exampleCreateCollection w p).1 = Except.error e := by
  simp [exampleCreateCollection, uploadCollectionMetadata, sdkUploadMetadata, hu,
        createCollection, sdkNftCreate, hc]

/-- C3 witness. -/
theorem exampleCreateCollection_create_failure_witness :
    wAbc.store (exampleMetadata "P") = Except.ok "loc://abc" ∧
    wAbc.createResp (createArgsOf (exampleCreateData "P" "loc://abc"))
      = Except.error Err.LedgerError ∧
    (exampleCreateCollection wAbc "P").1 = Except.error Err.LedgerError :=
  ⟨rfl, rfl,
    exampleCreateCollection_create_failure wAbc "P" "loc://abc" Err.LedgerError rfl rfl⟩

/-- C4: on an address the ledger does not resolve,
`updateCollectionMetadata` performs the read (findByMint) first, fails with
`NotFoundError` (not `LedgerError`), issues no update transaction, and
leaves the ledger unchanged. -/
theorem updateCollectionMetadata_notFound (w : World) (addr newUri : String)
    (h : w.ledger addr = none) :
    (updateCollectionMetadata w addr newUri).1 = Except.error Err.NotFoundError ∧
    (updateCollectionMetadata w addr newUri).2.calls
      = w.calls ++ [SdkCall.findByMint addr] ∧
    (∀ a, (updateCollectionMetadata w addr newUri).2.ledger a = w.ledger a) := by
  have hfind : sdkFindByMint w addr
      = (Except.error Err.NotFoundError,
         { w with calls := w.calls ++ [SdkCall.findByMint addr] }) := by
    simp [sdkFindByMint, h]
  refine ⟨?_, ?_, ?_⟩ <;> simp [updateCollectionMetadata, hfind]

/-- C4 witness: the empty ledger of `wOk` resolves no address. -/
theorem updateCollectionMetadata_notFound_witness :
    wOk.ledger "nope" = none ∧
    (updateCollectionMetadata wOk "nope" "loc://xyz").1
      = Except.error Err.NotFoundError :=
  ⟨rfl, (updateCollectionMetadata_notFound wOk "nope" "loc://xyz" rfl).1⟩

/-- C5: on an existing mutable record, `updateCollectionMetadata` succeeds
and the record stored at that address afterwards has the new uri while its
address, name, symbol, royalty, creators and mutability flag are unchanged;
every other ledger address is untouched. -/
theorem updateCollectionMetadata_frame (w : World) (addr newUri : String) (r : NftRecord)
    (hfind : w.ledger addr = some r) (haddr : r.address = addr)
    (hmut : r.isMutable = true) :
    (updateCollectionMetadata w addr newUri).1 = Except.ok () ∧
    (∃ r', (updateCollectionMetadata w addr newUri).2.ledger addr = some r' ∧
      r'.uri = newUri ∧ r'.address = r.address ∧ r'.name = r.name ∧
      r'.symbol = r.symbol ∧ r'.sellerFeeBasisPoints = r.sellerFeeBasisPoints ∧
      r'.creators = r.creators ∧ r'.isMutable = r.isMutable) ∧
    (∀ a, a ≠ addr → (updateCollectionMetadata w addr newUri).2.ledger a
      = w.ledger a) := by
  have hf : sdkFindByMint w addr
      = (Except.ok r, { w with calls := w.calls ++ [SdkCall.findByMint addr] }) := by
    simp [sdkFindByMint, hfind]
  refine ⟨?_, ⟨{ r with uri := newUri }, ?_, rfl, rfl, rfl, rfl, rfl, rfl, rfl⟩, ?_⟩
  · simp [updateCollectionMetadata, hf, sdkUpdate, hmut]
  · simp [updateCollectionMetadata, hf, sdkUpdate, hmut, haddr]
  · intro a ha
    simp [updateCollectionMetadata, hf, sdkUpdate, hmut, haddr, ha]

/-- C5 witness: updating `rec123` at `"addr123"` with `"loc://xyz"`. -/
theorem updateCollectionMetadata_frame_witness :
    wLedger.ledger "addr123" = some rec123 ∧
    rec123.address = "addr123" ∧ rec123.isMutable = true ∧
    ((updateCollectionMetadata wLedger "addr123" "loc://xyz").1 = Except.ok () ∧
     (∃ r', (updateCollectionMetadata wLedger "addr123" "loc://xyz").2.ledger "addr123"
          = some r' ∧
        r'.uri = "loc://xyz" ∧ r'.address = rec123.address ∧ r'.name = rec123.name ∧
        r'.symbol = rec123.symbol ∧
        r'.sellerFeeBasisPoints = rec123.sellerFeeBasisPoints ∧
        r'.creators = rec123.creators ∧ r'.isMutable = rec123.isMutable) ∧
     (∀ a, a ≠ "addr123" →
        (updateCollectionMetadata wLedger "addr123" "loc://xyz").2.ledger a
          = wLedger.ledger a)) :=
  ⟨by simp [wLedger], rfl, rfl,
    updateCollectionMetadata_frame wLedger "addr123" "loc://xyz" rec123
      (by simp [wLedger]) rfl rfl⟩

/-- C6: whenever the ledger accepts the create transaction,
`createCollection` returns a record whose uri is exactly the locator of its
input, unchanged. -/
theorem createCollection_uri_roundtrip (w : World) (cd : CollectionData) (addr : String)
    (h : w.createResp (createArgsOf cd) = Except.ok addr) :
    ∃ r, (createCollection w cd).1 = Except.ok r ∧ r.uri = cd.uri := by
  have hr : (createCollection w cd).1 = Except.ok
      { address := addr, name := (createArgsOf cd).name,
        symbol := (createArgsOf cd).symbol, uri := (createArgsOf cd).uri,
        sellerFeeBasisPoints := (createArgsOf cd).sellerFeeBasisPoints,
        creators := (createArgsOf cd).creators,
        isMutable := (createArgsOf cd).isMutable } := by
    simp [createCollection, sdkNftCreate, h]
  exact ⟨_, hr, rfl⟩

/-- C6 witness. -/
theorem createCollection_uri_roundtrip_witness :
    wOk.createResp (createArgsOf (exampleCreateData "P" "loc://abc"))
      = Except.ok "addr123" ∧
    ∃ r, (createCollection wOk (exampleCreateData "P" "loc://abc")).1 = Except.ok r ∧
      r.uri = (exampleCreateData "P" "loc://abc").uri :=
  ⟨rfl, createCollection_uri_roundtrip wOk (exampleCreateData "P" "loc://abc")
    "addr123" rfl⟩

/-- C7: calling `verifyCollection` twice with the same session, collection
address and candidate, against a ledger accepting both submissions, raises
no client-side error on either call and logs two separate ledger
submissions. -/
theorem verifyCollection_repeatable (w : World) (c n : String)
    (h : w.verifyResp n c = Except.ok ()) :
    (verifyCollection w c n).1 = Except.ok () ∧
    (verifyCollection (verifyCollection w c n).2 c n).1 = Except.ok () ∧
    (verifyCollection (verifyCollection w c n).2 c n).2.calls
      = w.calls ++ [SdkCall.verifyCollection n c, SdkCall.verifyCollection n c] := by
  refine ⟨h, h, ?_⟩
  simp [verifyCollection, sdkVerifyCollection]

/-- C7 witness. -/
theorem verifyCollection_repeatable_witness :
    wOk.verifyResp "nft1" "addr123" = Except.ok () ∧
    ((verifyCollection wOk "addr123" "nft1").1 = Except.ok () ∧
     (verifyCollection (verifyCollection wOk "addr123" "nft1").2 "addr123" "nft1").1
       = Except.ok () ∧
     (verifyCollection (verifyCollection wOk "addr123" "nft1").2 "addr123" "nft1").2.calls
       = wOk.calls ++ [SdkCall.verifyCollection "nft1" "addr123",
                       SdkCall.verifyCollection "nft1" "addr123"]) :=
  ⟨rfl, verifyCollection_repeatable wOk "addr123" "nft1" rfl⟩

/-- C8: the create call `createCollection` issues carries
`isMutable = true` when the caller omits the option, and the caller's
explicit value when one is supplied. -/
theorem createCollection_isMutable_default (w : World) (cd : CollectionData) :
    (createCollection w cd).2.calls = w.calls ++ [SdkCall.create (createArgsOf cd)] ∧
    (cd.isMutable = none → (createArgsOf cd).isMutable = true) ∧
    (∀ b, cd.isMutable = some b → (createArgsOf cd).isMutable = b) := by
  refine ⟨?_, ?_, ?_⟩
  · cases h : w.createResp (createArgsOf cd) <;> simp [createCollection, sdkNftCreate, h]
  · intro hn; simp [createArgsOf, hn]
  · intro b hb; simp [createArgsOf, hb]

/-- C8 witness: one input omitting the option, one supplying `false`. -/
theorem createCollection_isMutable_default_witness :
    cdNoMut.isMutable = none ∧ (createArgsOf cdNoMut).isMutable = true ∧
    cdExplicit.isMutable = some false ∧ (createArgsOf cdExplicit).isMutable = false :=
  ⟨rfl, (createCollection_isMutable_default wOk cdNoMut).2.1 rfl, rfl,
    (createCollection_isMutable_default wOk cdExplicit).2.2 false rfl⟩

/-- C9: `initializeMetaplex` always configures storage with the hard-coded
devnet bundlr address and a 60000 ms timeout; only the provider url and the
connection endpoint vary with the `rpcEndpoint` argument. -/
theorem initializeMetaplex_fixed_storage (rpcEndpoint payerKeypair : String) :
    (initializeMetaplex rpcEndpoint payerKeypair).storage.address
      = "https://devnet.bundlr.network" ∧
    (initializeMetaplex rpcEndpoint payerKeypair).storage.timeout = 60000 ∧
    (initializeMetaplex rpcEndpoint payerKeypair).storage.providerUrl = rpcEndpoint ∧
    (initializeMetaplex rpcEndpoint payerKeypair).connectionEndpoint = rpcEndpoint ∧
    ∀ e2 : String,
      (initializeMetaplex e2 payerKeypair).storage.address
        = (initializeMetaplex rpcEndpoint payerKeypair).storage.address ∧
      (initializeMetaplex e2 payerKeypair).storage.timeout
        = (initializeMetaplex rpcEndpoint payerKeypair).storage.timeout :=
  ⟨rfl, rfl, rfl, rfl, fun _ => ⟨rfl, rfl⟩⟩

/-- C10: the result of `createCollection` is independent of the optional
`collection` field of its input, and every issued create call has
`isCollection = true`. -/
theorem createCollection_ignores_collection_field (w : World) (cd : CollectionData)
    (c1 c2 : Option String) :
    createCollection w { cd with collection := c1 }
      = createCollection w { cd with collection := c2 } ∧
    (createCollection w cd).2.calls = w.calls ++ [SdkCall.create (createArgsOf cd)] ∧
    (createArgsOf cd).isCollection = true := by
  refine ⟨rfl, ?_, rfl⟩
  cases h : w.createResp (createArgsOf cd) <;> simp [createCollection, sdkNftCreate, h]

end Collection
